import Mathlib

/-!
# Verification of the change-stream layer of a MongoDB Rust driver prototype

This file gives a shallow embedding, in Lean, of the change-stream code of
the repository (src/src/change_stream/pipelines.rs and
src/src/change_stream/mod.rs) and proves properties of it.

Modelling conventions:
* A BSON value is modelled by `BVal`; a BSON document (`bson::Document`,
  an insertion-ordered map) is a `List (String × BVal)` with unique keys
  maintained by `dinsert`/`dremove`.  The distinction between the Int32 and
  Int64 BSON types is irrelevant to every property proved here, so a single
  `int` constructor stands for both.
* Serde serialization of the options struct (`to_bson(self.options)`) is
  total for this struct and emits every field, with `None` options emitted
  as BSON `null` (the struct carries no `skip_serializing_if` attributes).
* The Rust `unreachable!()` macro aborts the process; a code path that
  reaches it is modelled by a distinct `panicked` outcome.
* The cursor collaborator (`Cursor.next() -> Option<Result<Document>>`) is
  not part of the sources; per the documented collaborator contract it is
  modelled as a prescribed stream of responses: a list of `CursorResp`,
  consumed from the front, an exhausted list standing for a cursor that
  currently has nothing to report.
-/

/-- A BSON value, as far as the change-stream layer observes it. -/
inductive BVal where
  | null
  | boolean (b : Bool)
  | int (n : Int)
  | str (s : String)
  | timestamp (t : Nat) (i : Nat)
  | doc (d : List (String × BVal))
  | arr (l : List BVal)

/-- A BSON document: an insertion-ordered association list. -/
abbrev BDoc := List (String × BVal)

/-- `bson::TimeStamp { t: u32, i: u32 }`. -/
structure TimeStamp where
  t : Nat
  i : Nat
deriving DecidableEq, Repr

/-- Serialize a timestamp to BSON (the embedding of `to_bson(&optime)`,
which cannot fail for a timestamp). -/
def serTimeStamp (ts : TimeStamp) : BVal := .timestamp ts.t ts.i

/-- Key lookup in a document (`Document::get`): value of the first entry
with the given key. -/
def dget (d : BDoc) (k : String) : Option BVal :=
  (d.find? (fun p => p.1 == k)).map (·.2)

/-- `Document::remove`: drop the entry with the given key.  Keys are unique
in every document the code builds, so removing all occurrences coincides
with removing the one occurrence. -/
def dremove (d : BDoc) (k : String) : BDoc :=
  d.filter (fun p => p.1 != k)

/-- `Document::insert` (a `linked_hash_map` insert): an existing entry for
the key is dropped and the new pair is attached at the back. -/
def dinsert (d : BDoc) (k : String) (v : BVal) : BDoc :=
  dremove d k ++ [(k, v)]

@[simp] theorem dget_nil (k : String) : dget [] k = none := rfl

theorem dget_cons (p : String × BVal) (d : BDoc) (k : String) :
    dget (p :: d) k = if p.1 == k then some p.2 else dget d k := by
  by_cases h : p.1 == k <;> simp [dget, List.find?, h]

@[simp] theorem dget_dremove_self (d : BDoc) (k : String) :
    dget (dremove d k) k = none := by
  induction d with
  | nil => rfl
  | cons p rest ih =>
    simp only [dremove, List.filter_cons] at ih ⊢
    by_cases h : p.1 = k
    · simp [h, ih]
    · simp [h, dget_cons, ih]

theorem dget_dremove_ne (d : BDoc) (k k' : String) (h : k' ≠ k) :
    dget (dremove d k) k' = dget d k' := by
  induction d with
  | nil => rfl
  | cons p rest ih =>
    simp only [dremove, List.filter_cons] at ih ⊢
    by_cases hp : p.1 = k
    · simp [hp, dget_cons, Ne.symm h, ih]
    · by_cases hp' : p.1 = k'
      · simp [hp, dget_cons, hp', h]
      · simp [hp, dget_cons, hp', ih]

theorem dget_append (d₁ d₂ : BDoc) (k : String) :
    dget (d₁ ++ d₂) k = ((dget d₁ k).or (dget d₂ k)) := by
  induction d₁ with
  | nil => rfl
  | cons p rest ih =>
    by_cases h : p.1 = k <;> simp [dget_cons, h, ih]

@[simp] theorem dget_dinsert_self (d : BDoc) (k : String) (v : BVal) :
    dget (dinsert d k v) k = some v := by
  simp [dinsert, dget_append, dget_cons]

theorem dget_dinsert_ne (d : BDoc) (k k' : String) (v : BVal) (h : k' ≠ k) :
    dget (dinsert d k v) k' = dget d k' := by
  rw [dinsert, dget_append, dget_dremove_ne d k k' h]
  simp [dget_cons, Ne.symm h]

/-! ## The options model (`ChangeStreamOptions`, mod.rs lines 415-475) -/

/-- `ChangeStreamOptionsFullDocument`. -/
inductive FullDocument where
  | Default
  | UpdateLookup
  | Other (s : String)
deriving DecidableEq, Repr

/-- Serde serialization of the full-document mode (externally tagged enum
with camelCase renaming: unit variants become strings, the newtype variant
becomes a one-entry document). -/
def serFullDocument : FullDocument → BVal
  | .Default => .str "default"
  | .UpdateLookup => .str "updateLookup"
  | .Other s => .doc [("other", .str s)]

/-- `ChangeStreamOptions` (mod.rs lines 415-461). -/
structure ChangeStreamOptions where
  full_document : FullDocument
  resume_after : Option BDoc
  max_await : Option Int
  batch_size : Option Int
  collation : Option BDoc
  start_at_operation_time : Option TimeStamp
  start_after : Option BDoc

/-- An `Option` field serialized by serde: `None` becomes BSON null. -/
def serOpt (f : α → BVal) : Option α → BVal
  | none => .null
  | some a => f a

/-- The embedding of `to_bson(self.options)` (pipelines.rs line 42): serde
serialization of the options struct, total for this struct, one entry per
field in declaration order, using the serde rename of each field. -/
def toBsonOptions (o : ChangeStreamOptions) : BDoc :=
  [ ("fullDocument", serFullDocument o.full_document),
    ("resumeAfter", serOpt BVal.doc o.resume_after),
    ("maxAwaitTimeMS", serOpt BVal.int o.max_await),
    ("batchSize", serOpt BVal.int o.batch_size),
    ("collation", serOpt BVal.doc o.collation),
    ("startAtOperationTime", serOpt serTimeStamp o.start_at_operation_time),
    ("startAfter", serOpt BVal.doc o.start_after) ]

/-! ## The pipeline builder (pipelines.rs) -/

/-- `PipelineBuilder` (pipelines.rs lines 11-20). -/
structure PipelineBuilder where
  pipeline : List BDoc
  options : ChangeStreamOptions
  for_cluster : Bool
  document_resume_token : Option BDoc
  post_batch_resume_token : Option BDoc
  buffer_len : Nat
  last_optime : Option TimeStamp

/-- `PipelineBuilder::new` (pipelines.rs lines 33-38). -/
def PipelineBuilder.new (pipeline : List BDoc) (options : ChangeStreamOptions)
    (buffer_len : Nat) : PipelineBuilder :=
  { pipeline, options, buffer_len, for_cluster := false, last_optime := none,
    document_resume_token := none, post_batch_resume_token := none }

/-- `PipelineBuilder::for_cluster` (pipelines.rs lines 103-106).  Named
apart from the field it sets. -/
def PipelineBuilder.forCluster (b : PipelineBuilder) : PipelineBuilder :=
  { b with for_cluster := true }

/-- The outcome of `PipelineBuilder::build`: in Rust, `Result<Vec<Document>>`
where serialization of the options (infallible for this struct, hence never
produced in the model) may err, plus the distinguished outcome of reaching
the `unreachable!()` macro at pipelines.rs line 86, which aborts. -/
inductive BuildOutcome where
  | ok (stages : List BDoc)
  | panicked

/-- The serialized options document at pipelines.rs lines 42-50: the serde
serialization of the original options, with the `allChangesForCluster` flag
added for cluster-wide streams. -/
def buildBaseOpts (b : PipelineBuilder) : BDoc :=
  if b.for_cluster
  then dinsert (toBsonOptions b.options) "allChangesForCluster" (.boolean true)
  else toBsonOptions b.options

/-- The resume-directive precedence chain of `PipelineBuilder::build`
(pipelines.rs lines 52-93) applied to the serialized options document;
`none` is the `unreachable!()` arm at line 86.  Each `Option::unwrap` of
the source is rendered as `Option.getD _ []` under the `isSome` guard of
its branch. -/
def buildOptsDoc (b : PipelineBuilder) : Option BDoc :=
  let opts1 := buildBaseOpts b
  -- Handle existence of post batch resume token and empty buffer.
  if b.post_batch_resume_token.isSome && b.buffer_len == 0 then
    some (dremove (dremove
      (dinsert opts1 "resumeAfter" (.doc (b.post_batch_resume_token.getD [])))
      "startAfter") "startAtOperationTime")
  -- Handle existence of document resume token.
  else if b.document_resume_token.isSome then
    some (dremove (dremove
      (dinsert opts1 "resumeAfter" (.doc (b.document_resume_token.getD [])))
      "startAfter") "startAtOperationTime")
  -- Handle case where a startAfter was originally provided by user.
  else if b.options.start_after.isSome then
    some (dremove
      (dinsert opts1 "resumeAfter" (.doc (b.options.start_after.getD [])))
      "startAfter")
  -- Handle case where a resumeAfter was originally provided by user.
  else if b.options.resume_after.isSome then
    some (dinsert opts1 "resumeAfter" (.doc (b.options.resume_after.getD [])))
  -- The operation-time branch, with its `unreachable!()` arm.
  else if b.last_optime.isSome || b.options.start_at_operation_time.isSome then
    match b.last_optime, b.options.start_at_operation_time with
    | some optime, none => some (dinsert opts1 "startAtOperationTime" (serTimeStamp optime))
    | none, some optime => some (dinsert opts1 "startAtOperationTime" (serTimeStamp optime))
    | _, _ => none
  -- Final fall-through: use the original options unchanged.
  else
    some opts1

/-- `PipelineBuilder::build` (pipelines.rs lines 40-100): the change-stream
stage built from the options and resume state, prepended to the original
pipeline stages. -/
def PipelineBuilder.build (b : PipelineBuilder) : BuildOutcome :=
  match buildOptsDoc b with
  | some o => .ok ([("$changeStream", .doc o)] :: b.pipeline)
  | none => .panicked

/-! ## The error model

The repository's `error` module (`error::Error`, `error::ErrorCode`) is a
collaborator that is not among the sources; only its uses appear in the
change-stream code. -/

/-- Modelled from the spec: `error::ErrorCode` is not under src/.  The spec
classifies server error codes into network-level codes, the three denylisted
codes the change-stream code names (operation interrupted, capped-collection
position lost, cursor killed), and all remaining codes; the constructors
mirror that partition, carrying the numeric code where it is not fixed. -/
inductive ErrorCode where
  | Interrupted
  | CappedPositionLost
  | CursorKilled
  | NetworkCode (n : Nat)
  | OtherCode (n : Nat)
deriving DecidableEq, Repr

/-- Modelled from the spec: `ErrorCode::is_network_error()` holds exactly of
the network-level server error codes. -/
def ErrorCode.is_network_error : ErrorCode → Bool
  | .NetworkCode _ => true
  | _ => false

/-- Modelled from the spec: `error::Error` is not under src/.  The
change-stream code distinguishes only the `CodedError` variant (a server
error code) and constructs `DefaultError` messages; every other variant of
the enum behaves alike in this layer and is condensed into a tagged
catch-all constructor. -/
inductive Error where
  | CodedError (code : ErrorCode)
  | DefaultError (msg : String)
  | OtherKind (tag : String)
deriving DecidableEq, Repr

/-! ## The cursor collaborator -/

/-- One response of `Cursor.next() -> Option<Result<Document>>`:
no item available right now, a raw payload document, or an error. -/
inductive CursorResp where
  | noItem
  | item (d : BDoc)
  | fail (e : Error)

/-- Modelled from the spec: the `cursor::Cursor` collaborator is not under
src/.  Its observable behaviour at this layer is the sequence of responses
its `next()` calls produce, so a cursor is a prescribed list of responses
consumed from the front (an exhausted list keeps reporting "no item"). -/
structure Cursor where
  resps : List CursorResp

/-- `Cursor::next`, returning the response and the advanced cursor. -/
def Cursor.next : Cursor → CursorResp × Cursor
  | ⟨[]⟩ => (.noItem, ⟨[]⟩)
  | ⟨r :: rest⟩ => (r, ⟨rest⟩)

/-- The collaborator interface that turns an aggregation pipeline into a
live cursor (`Database::command_cursor` behind `ChangeStream::new_cursor`):
the environment chooses the resulting cursor or error. -/
abbrev CursorProvider := List BDoc → Except Error Cursor

/-! ## The payload model (mod.rs lines 303-369) and its deserialization -/

/-- `ChangeStreamDocument` (mod.rs lines 327-369).  The feed logic reads
only the mandatory resume token `_id`; the remaining (all optional) fields
are never read by the feed and are kept as the raw document. -/
structure ChangeStreamDocument where
  id : BDoc
  body : BDoc

/-- Deserialization of one batch element: the `_id` field must be present
and be a document (mod.rs lines 329-333). -/
def parseCSDoc (d : BDoc) : Option ChangeStreamDocument :=
  match dget d "_id" with
  | some (.doc t) => some ⟨t, d⟩
  | _ => none

/-- Deserialization of a batch: every element must be a document with a
resume token. -/
def parseBatch : List BVal → Option (List ChangeStreamDocument)
  | [] => some []
  | .doc d :: rest => do
    let cd ← parseCSDoc d
    let r ← parseBatch rest
    pure (cd :: r)
  | _ => none

/-- `CSPayloadCursor` (mod.rs lines 314-322). -/
structure CSPayloadCursor where
  ns : String
  id : Int
  batch : List ChangeStreamDocument
  post_batch_resume_token : Option BDoc

/-- `CSPayload` (mod.rs lines 304-311). -/
structure CSPayload where
  cursor : CSPayloadCursor
  operation_time : TimeStamp
  cluster_time : BDoc

/-- Serde deserialization of an `Option<Document>` field: a missing entry
or BSON null gives `none`, a document gives `some`, any other value fails. -/
def parseOptDoc : Option BVal → Option (Option BDoc)
  | none => some none
  | some .null => some none
  | some (.doc d) => some (some d)
  | some _ => none

/-- Deserialization of the `cursor` sub-document of a payload: `ns` (string)
and `id` (integer) are mandatory, the batch may appear under its serde
aliases `firstBatch`/`nextBatch` or its field name, and
`postBatchResumeToken` is optional. -/
def parseCursorDoc (c : BDoc) : Option CSPayloadCursor :=
  match dget c "ns" with
  | some (.str ns) =>
    match dget c "id" with
    | some (.int cid) =>
      match (match dget c "firstBatch" with
             | some v => some v
             | none => match dget c "nextBatch" with
                       | some v => some v
                       | none => dget c "batch") with
      | some (.arr l) =>
        match parseBatch l with
        | some batch =>
          match parseOptDoc (dget c "postBatchResumeToken") with
          | some pbrt =>
            some { ns := ns, id := cid, batch := batch,
                   post_batch_resume_token := pbrt }
          | none => none
        | none => none
      | _ => none
    | _ => none
  | _ => none

/-- Serde deserialization of a fetch payload into `CSPayload`
(`bson::from_bson` at mod.rs line 257): the `cursor` sub-document,
`operationTime` (a timestamp) and `$clusterTime` (a document) are all
mandatory; `none` models a deserialization error. -/
def parseCSPayload (d : BDoc) : Option CSPayload :=
  match dget d "cursor" with
  | some (.doc c) =>
    match parseCursorDoc c with
    | some cur =>
      match dget d "operationTime" with
      | some (.timestamp t i) =>
        match dget d "$clusterTime" with
        | some (.doc ct) =>
          some { cursor := cur, operation_time := ⟨t, i⟩, cluster_time := ct }
        | _ => none
      | _ => none
    | none => none
  | _ => none

/-! ## The change stream state machine (mod.rs) -/

/-- `ReadMode` (common.rs lines 67-73). -/
inductive ReadMode where
  | Primary
  | PrimaryPreferred
  | Secondary
  | SecondaryPreferred
  | Nearest
deriving DecidableEq, Repr

/-- `ReadPreference` (common.rs lines 93-98); tag sets are string maps. -/
structure ReadPreference where
  mode : ReadMode
  tag_sets : List (List (String × String))

/-- `CSType` (mod.rs lines 64-68).  The database and client handles the Rust
variants carry are network handles subsumed by the `CursorProvider`
environment; only the data that influences pipeline building remains. -/
inductive CSType where
  | Coll (name : String)
  | Db
  | Deployment

/-- `ChangeStream` (mod.rs lines 25-61). -/
structure ChangeStream where
  cstype : CSType
  cursor : Cursor
  buffer : List ChangeStreamDocument
  document_resume_token : Option BDoc
  post_batch_resume_token : Option BDoc
  pipeline : List BDoc
  options : ChangeStreamOptions
  read_preference : ReadPreference
  last_optime : Option TimeStamp
  is_initial_agg : Bool

/-- `ChangeStream::get_resume_token` (mod.rs lines 72-80). -/
def ChangeStream.get_resume_token (cs : ChangeStream) : Option BDoc :=
  if cs.post_batch_resume_token.isSome && cs.buffer.length == 0 then
    cs.post_batch_resume_token
  else
    cs.document_resume_token

/-- `ChangeStream::is_error_recoverable` (mod.rs lines 172-193). -/
def ChangeStream.is_error_recoverable (cs : ChangeStream) (err : Error) : Bool :=
  if cs.is_initial_agg then false
  else
    match err with
    | .CodedError ecode =>
      if ecode.is_network_error then true
      else
        match ecode with
        | .Interrupted | .CappedPositionLost | .CursorKilled => false
        | _ => true
    | _ => true

/-- The pipeline-building part of `ChangeStream::new_cursor` (mod.rs lines
196-221): a builder seeded from the current resume state, with the cluster
flag for deployment-wide streams. -/
def ChangeStream.rebuild_pipeline (cs : ChangeStream) : BuildOutcome :=
  let pipe := { PipelineBuilder.new cs.pipeline cs.options cs.buffer.length with
    post_batch_resume_token := cs.post_batch_resume_token,
    document_resume_token := cs.document_resume_token,
    last_optime := cs.last_optime }
  match cs.cstype with
  | .Deployment => pipe.forCluster.build
  | _ => pipe.build

/-- `ChangeStream::new_cursor` (mod.rs lines 196-221): build the pipeline
and ask the collaborator for a cursor over the rebuilt aggregation.
`none` models the panic of a build that reaches `unreachable!()`. -/
def ChangeStream.new_cursor (cs : ChangeStream) (env : CursorProvider) :
    Option (Except Error Cursor) :=
  match cs.rebuild_pipeline with
  | .ok stages => some (env stages)
  | .panicked => none

/-- The error produced when a payload fails to deserialize (mod.rs lines
257-259); the Rust message additionally appends the serde error's text. -/
def missing_resume_token_error : Error :=
  .DefaultError ("Cannot provide resume functionality when the resume token is missing." ++
    " If you need to change the shape of the change stream document, please use raw aggregations.")

/-- `ChangeStream::update_buffer` (mod.rs lines 227-268), returning the
`Result<()>` together with the state (`&mut self`) it leaves behind;
`none` models a panic inside `PipelineBuilder::build` during recovery. -/
def ChangeStream.update_buffer (cs : ChangeStream) (env : CursorProvider) :
    Option (Except Error Unit × ChangeStream) :=
  -- We must not proceed with an update if buffer is populated.
  if cs.buffer.length > 0 then some (.ok (), cs)
  else
    -- the `match self.cursor.next()` block: either an early return, or the
    -- fetched raw payload document together with the state at that point
    let step : Option ((Except Error Unit × ChangeStream) ⊕ (BDoc × ChangeStream)) :=
      match cs.cursor.next with
      | (.item d, cur1) => some (.inr (d, { cs with cursor := cur1 }))
      | (.noItem, cur1) => some (.inl (.ok (), { cs with cursor := cur1 }))
      | (.fail e, cur1) =>
        let cs1 : ChangeStream := { cs with cursor := cur1 }
        -- If we can't recover from this error, propagate.
        if !(cs1.is_error_recoverable e) then some (.inl (.error e, cs1))
        else
          -- Build a new cursor from our last logical resume point; we only
          -- attempt to recover once.
          match cs1.new_cursor env with
          | none => none
          | some (.error e2) => some (.inl (.error e2, cs1))
          | some (.ok newCur) =>
            match newCur.next with
            | (.item d, cur2) => some (.inr (d, { cs1 with cursor := cur2 }))
            | (.fail e2, cur2) => some (.inl (.error e2, { cs1 with cursor := cur2 }))
            | (.noItem, cur2) => some (.inl (.ok (), { cs1 with cursor := cur2 }))
    match step with
    | none => none
    | some (.inl r) => some r
    | some (.inr (d, cs')) =>
      -- We have a new cursor payload, so deserialize it and update state.
      match parseCSPayload d with
      | none => some (.error missing_resume_token_error, cs')
      | some p => some (.ok (), { cs' with
          post_batch_resume_token := p.cursor.post_batch_resume_token,
          buffer := p.cursor.batch.reverse,
          last_optime := some p.operation_time,
          is_initial_agg := false })

/-- `<ChangeStream as Iterator>::next` (mod.rs lines 283-300), returning the
`Option<Result<ChangeStreamDocument>>` together with the state it leaves
behind; the outer `none` models a propagated panic. -/
def ChangeStream.next (cs : ChangeStream) (env : CursorProvider) :
    Option (Option (Except Error ChangeStreamDocument) × ChangeStream) :=
  let step : Option (Except Error Unit × ChangeStream) :=
    if cs.buffer.length == 0 then cs.update_buffer env else some (.ok (), cs)
  match step with
  | none => none
  | some (.error e, cs1) => some (some (.error e), cs1)
  | some (.ok _, cs1) =>
    -- `self.buffer.pop()`: the buffer is stored reversed, popping its last
    -- element yields the batch in original server order.
    match cs1.buffer.getLast? with
    | some change_doc =>
      some (some (.ok change_doc),
        { cs1 with buffer := cs1.buffer.dropLast,
                   document_resume_token := some change_doc.id })
    | none => some (none, cs1)

/-- Iterated `next`: the list of documents yielded by `n` successive calls,
provided every call yields a document. -/
def ChangeStream.drainN (env : CursorProvider) :
    ChangeStream → Nat → Option (List ChangeStreamDocument × ChangeStream)
  | cs, 0 => some ([], cs)
  | cs, n + 1 =>
    match cs.next env with
    | some (some (.ok d), cs1) =>
      (ChangeStream.drainN env cs1 n).map (fun r => (d :: r.1, r.2))
    | _ => none

/-! ## Facts about the serialized options document -/

theorem dget_buildBaseOpts_startAfter (b : PipelineBuilder) :
    dget (buildBaseOpts b) "startAfter" = some (serOpt BVal.doc b.options.start_after) := by
  unfold buildBaseOpts
  cases b.for_cluster with
  | false => rfl
  | true =>
    rw [if_pos rfl, dget_dinsert_ne _ _ _ _ (by decide)]
    rfl

theorem dget_buildBaseOpts_resumeAfter (b : PipelineBuilder) :
    dget (buildBaseOpts b) "resumeAfter" = some (serOpt BVal.doc b.options.resume_after) := by
  unfold buildBaseOpts
  cases b.for_cluster with
  | false => rfl
  | true =>
    rw [if_pos rfl, dget_dinsert_ne _ _ _ _ (by decide)]
    rfl

/-! ## Sample values used to instantiate theorems with hypotheses -/

/-- A default options value (every optional directive unset). -/
def sampleOptions : ChangeStreamOptions :=
  { full_document := .Default, resume_after := none, max_await := none,
    batch_size := none, collation := none, start_at_operation_time := none,
    start_after := none }

/-- A sample notification document with resume token `{t: 1}`. -/
def sampleDoc : ChangeStreamDocument :=
  ⟨[("t", .int 1)], [("_id", .doc [("t", .int 1)])]⟩

/-- A second sample notification document with resume token `{t: 2}`. -/
def sampleDoc2 : ChangeStreamDocument :=
  ⟨[("t", .int 2)], [("_id", .doc [("t", .int 2)])]⟩

/-- A sample freshly-constructed collection watcher state. -/
def sampleStream : ChangeStream :=
  { cstype := .Coll "c", cursor := ⟨[]⟩, buffer := [],
    document_resume_token := none, post_batch_resume_token := none,
    pipeline := [], options := sampleOptions,
    read_preference := ⟨.Primary, []⟩, last_optime := none,
    is_initial_agg := true }

/-- A cursor provider that answers every rebuilt query with a non-network
error; used only to instantiate environments in witnesses. -/
def sampleEnv : CursorProvider := fun _ => .error (.OtherKind "unused")

/-! ## C1: totality of the pipeline builder -/

/-- **C1** (counterexample): the claim "build() ... never panics — in
particular when a last-observed operation time and a user-supplied
start_at_operation_time are simultaneously present" is false: with no
resume token of any kind, no user start_after/resume_after, a user
start_at_operation_time, and a recorded last operation time, the build
reaches the `unreachable!()` arm (pipelines.rs line 86) and panics. -/
theorem build_panics_on_simultaneous_times :
    PipelineBuilder.build
      { pipeline := [],
        options := { full_document := .Default, resume_after := none,
                     max_await := none, batch_size := none, collation := none,
                     start_at_operation_time := some ⟨5, 1⟩, start_after := none },
        for_cluster := false, document_resume_token := none,
        post_batch_resume_token := none, buffer_len := 0,
        last_optime := some ⟨7, 2⟩ } = .panicked := rfl

/-- **C1** (amended): the builder performs no network I/O and is total —
returning the built stage list — for every input except exactly one family:
when no higher-precedence resume directive applies (no post-batch token
with an empty buffer, no document resume token, no user start_after, no
user resume_after) while a last-observed operation time and a user-supplied
start_at_operation_time are both present, `build()` panics on the source's
`unreachable!()` assumption instead of returning. -/
theorem build_panics_iff (b : PipelineBuilder) :
    b.build = .panicked ↔
      ¬ (b.post_batch_resume_token.isSome = true ∧ b.buffer_len = 0) ∧
      b.document_resume_token = none ∧
      b.options.start_after = none ∧
      b.options.resume_after = none ∧
      b.last_optime.isSome = true ∧
      b.options.start_at_operation_time.isSome = true := by
  cases hdt : b.document_resume_token <;>
    cases hsa : b.options.start_after <;>
    cases hra : b.options.resume_after <;>
    cases hlo : b.last_optime <;>
    cases hst : b.options.start_at_operation_time <;>
    by_cases h1 : b.post_batch_resume_token.isSome = true ∧ b.buffer_len = 0 <;>
    simp [PipelineBuilder.build, buildOptsDoc, hdt, hsa, hra, hlo, hst, h1]

/-! ## C2: post-batch-token precedence -/

/-- **C2**: whenever the post-batch resume token is `T` and the buffer
length is 0, the built change-stream stage carries `resumeAfter = T` and
carries neither a `startAfter` key nor a `startAtOperationTime` key,
whatever the original options specified. -/
theorem build_post_batch_precedence (b : PipelineBuilder) (T : BDoc)
    (hT : b.post_batch_resume_token = some T) (hb : b.buffer_len = 0) :
    ∃ o, b.build = .ok ([("$changeStream", BVal.doc o)] :: b.pipeline) ∧
      dget o "resumeAfter" = some (.doc T) ∧
      dget o "startAfter" = none ∧
      dget o "startAtOperationTime" = none := by
  refine ⟨dremove (dremove (dinsert (buildBaseOpts b) "resumeAfter" (.doc T))
      "startAfter") "startAtOperationTime", ?_, ?_, ?_, ?_⟩
  · unfold PipelineBuilder.build buildOptsDoc
    simp [hT, hb]
  · rw [dget_dremove_ne _ _ _ (by decide), dget_dremove_ne _ _ _ (by decide),
      dget_dinsert_self]
  · rw [dget_dremove_ne _ _ _ (by decide), dget_dremove_self]
  · rw [dget_dremove_self]

/-- **C2** witness: the theorem applied to a builder whose original options
request `startAfter` and `startAtOperationTime`, with post-batch token
`{p: 1}` and an empty buffer. -/
theorem build_post_batch_precedence_witness :
    ∃ o, PipelineBuilder.build
        { pipeline := [],
          options := { sampleOptions with
                       start_after := some [("s", BVal.int 3)],
                       start_at_operation_time := some ⟨4, 4⟩ },
          for_cluster := false, document_resume_token := none,
          post_batch_resume_token := some [("p", .int 1)], buffer_len := 0,
          last_optime := none } =
      .ok ([("$changeStream", BVal.doc o)] :: []) ∧
      dget o "resumeAfter" = some (.doc [("p", .int 1)]) ∧
      dget o "startAfter" = none ∧
      dget o "startAtOperationTime" = none :=
  build_post_batch_precedence _ _ rfl rfl

/-! ## C7: never both startAfter and resumeAfter -/

/-- **C7**: no built change-stream stage ever carries both a `startAfter`
directive and a `resumeAfter` directive — including when the user set both
`start_after` and `resume_after`.  Carrying a directive means the key is
present with a non-null value (serde serializes unset options as BSON
null, and the builder strips or converts the `startAfter` key in every
branch in which the user had set it). -/
theorem build_never_both_start_and_resume (b : PipelineBuilder) (o : BDoc)
    (rest : List BDoc)
    (h : b.build = .ok ([("$changeStream", BVal.doc o)] :: rest)) :
    ¬ ((∃ v, dget o "startAfter" = some v ∧ v ≠ .null) ∧
       (∃ w, dget o "resumeAfter" = some w ∧ w ≠ .null)) := by
  have hod : buildOptsDoc b = some o := by
    unfold PipelineBuilder.build at h
    cases hbo : buildOptsDoc b with
    | none => rw [hbo] at h; exact absurd h (by simp)
    | some o' => rw [hbo] at h; simp at h; rw [h.1]
  have hsa : dget o "startAfter" = none ∨ dget o "startAfter" = some .null := by
    unfold buildOptsDoc at hod
    by_cases h1 : (b.post_batch_resume_token.isSome && b.buffer_len == 0) = true
    · rw [if_pos h1] at hod
      injection hod with hod
      subst hod
      left
      rw [dget_dremove_ne _ _ _ (by decide), dget_dremove_self]
    · rw [if_neg h1] at hod
      by_cases h2 : b.document_resume_token.isSome = true
      · rw [if_pos h2] at hod
        injection hod with hod
        subst hod
        left
        rw [dget_dremove_ne _ _ _ (by decide), dget_dremove_self]
      · rw [if_neg h2] at hod
        by_cases h3 : b.options.start_after.isSome = true
        · rw [if_pos h3] at hod
          injection hod with hod
          subst hod
          left
          rw [dget_dremove_self]
        · have hsa0 : b.options.start_after = none :=
            Option.not_isSome_iff_eq_none.mp h3
          rw [if_neg h3] at hod
          by_cases h4 : b.options.resume_after.isSome = true
          · rw [if_pos h4] at hod
            injection hod with hod
            subst hod
            right
            rw [dget_dinsert_ne _ _ _ _ (by decide),
              dget_buildBaseOpts_startAfter, hsa0]
            rfl
          · rw [if_neg h4] at hod
            by_cases h5 : (b.last_optime.isSome || b.options.start_at_operation_time.isSome) = true
            · rw [if_pos h5] at hod
              right
              cases hlo : b.last_optime with
              | some optime =>
                cases hst : b.options.start_at_operation_time with
                | none =>
                  rw [hlo, hst] at hod
                  injection hod with hod
                  subst hod
                  rw [dget_dinsert_ne _ _ _ _ (by decide),
                    dget_buildBaseOpts_startAfter, hsa0]
                  rfl
                | some o2 => rw [hlo, hst] at hod; exact absurd hod (by simp)
              | none =>
                cases hst : b.options.start_at_operation_time with
                | some o2 =>
                  rw [hlo, hst] at hod
                  injection hod with hod
                  subst hod
                  rw [dget_dinsert_ne _ _ _ _ (by decide),
                    dget_buildBaseOpts_startAfter, hsa0]
                  rfl
                | none =>
                  rw [hlo, hst] at h5
                  exact absurd h5 (by simp)
            · rw [if_neg h5] at hod
              injection hod with hod
              subst hod
              right
              rw [dget_buildBaseOpts_startAfter, hsa0]
              rfl
  rintro ⟨⟨v, hv, hvn⟩, -⟩
  rcases hsa with h' | h' <;> rw [hv] at h' <;> simp_all

/-- Options in which the user set both `start_after` and `resume_after`
(the configuration the server would reject if both were forwarded). -/
def bothDirectiveOptions : ChangeStreamOptions :=
  { sampleOptions with
    start_after := some [("s", .int 3)],
    resume_after := some [("r", .int 4)] }

/-- **C7** witness: the theorem applied to a builder whose user options set
both `start_after` and `resume_after`; the built stage (its change-stream
document written out) carries no simultaneous pair of directives. -/
theorem build_never_both_start_and_resume_witness :
    ¬ ((∃ v, dget (dremove (dinsert
          (buildBaseOpts (PipelineBuilder.new [] bothDirectiveOptions 0))
          "resumeAfter" (.doc [("s", .int 3)])) "startAfter")
          "startAfter" = some v ∧ v ≠ .null) ∧
       (∃ w, dget (dremove (dinsert
          (buildBaseOpts (PipelineBuilder.new [] bothDirectiveOptions 0))
          "resumeAfter" (.doc [("s", .int 3)])) "startAfter")
          "resumeAfter" = some w ∧ w ≠ .null)) :=
  build_never_both_start_and_resume (PipelineBuilder.new [] bothDirectiveOptions 0)
    _ [] rfl

/-! ## C8: determinism of the pipeline builder -/

/-- **C8**: the builder is deterministic — two builds from inputs that agree
component by component (pipeline stages, options, cluster flag, document
and post-batch resume tokens, buffer length, last operation time) produce
identical output.  The embedded builder is a pure function, so this is
immediate; it certifies that the source builder consults no hidden state. -/
theorem build_deterministic (b₁ b₂ : PipelineBuilder)
    (hp : b₁.pipeline = b₂.pipeline) (ho : b₁.options = b₂.options)
    (hc : b₁.for_cluster = b₂.for_cluster)
    (hd : b₁.document_resume_token = b₂.document_resume_token)
    (hpb : b₁.post_batch_resume_token = b₂.post_batch_resume_token)
    (hb : b₁.buffer_len = b₂.buffer_len)
    (hl : b₁.last_optime = b₂.last_optime) :
    b₁.build = b₂.build := by
  cases b₁; cases b₂
  simp only at hp ho hc hd hpb hb hl
  subst hp; subst ho; subst hc; subst hd; subst hpb; subst hb; subst hl
  rfl

/-- **C8** witness: two identical concrete builders build identically. -/
theorem build_deterministic_witness :
    (PipelineBuilder.new [] sampleOptions 0).build =
      (PipelineBuilder.new [] sampleOptions 0).build :=
  build_deterministic _ _ rfl rfl rfl rfl rfl rfl rfl

/-! ## C3: the resume-token contract -/

/-- **C3**: `get_resume_token` returns the post-batch resume token exactly
when one is known and the buffer is empty, and otherwise returns the
document resume token of the last yielded item (`none` before any yield) —
in particular `some P` at buffer length 0 with known post-batch token `P`,
and the last yielded id whenever the buffer is non-empty. -/
theorem get_resume_token_contract (cs : ChangeStream) :
    (∀ P, cs.post_batch_resume_token = some P → cs.buffer.length = 0 →
      cs.get_resume_token = some P) ∧
    ((cs.post_batch_resume_token = none ∨ 0 < cs.buffer.length) →
      cs.get_resume_token = cs.document_resume_token) := by
  constructor
  · intro P hP hb
    simp [ChangeStream.get_resume_token, hP, hb]
  · rintro (h | h)
    · simp [ChangeStream.get_resume_token, h]
    · have hb : (cs.buffer.length == 0) = false := by
        simp only [beq_eq_false_iff_ne, ne_eq]
        omega
      simp [ChangeStream.get_resume_token, hb]

/-- **C3** witness: with empty buffer and known post-batch token `{p: 1}`,
the token getter returns `{p: 1}`. -/
theorem get_resume_token_contract_witness :
    ChangeStream.get_resume_token
      { sampleStream with post_batch_resume_token := some [("p", BVal.int 1)] } =
      some [("p", BVal.int 1)] :=
  (get_resume_token_contract _).1 _ rfl rfl

/-! ## C5: the error classification -/

/-- The spec's reference classification of cursor errors (§4.2 and §7 of
the specification, written from the spec's words for comparison against
the source classifier): before the first successful fetch nothing is
recoverable; afterwards, network-level errors are recoverable, the
denylisted server error codes (operation interrupted, capped-collection
position lost, cursor killed) are not, every other server error code is
recoverable, and every non-server error kind is recoverable. -/
def specRecoverable (first_fetch_done : Bool) (err : Error) : Bool :=
  if !first_fetch_done then false
  else
    match err with
    | .CodedError code =>
      if code.is_network_error then true
      else if code = .Interrupted ∨ code = .CappedPositionLost ∨
          code = .CursorKilled then false
      else true
    | _ => true

/-- **C5**: the source's `is_error_recoverable` agrees with the spec's
reference classification on every feed state and every error ("the first
successful fetch has completed" is the negation of the `is_initial_agg`
flag). -/
theorem is_error_recoverable_matches_spec (cs : ChangeStream) (err : Error) :
    cs.is_error_recoverable err = specRecoverable (!cs.is_initial_agg) err := by
  cases hin : cs.is_initial_agg with
  | true => simp [ChangeStream.is_error_recoverable, specRecoverable, hin]
  | false =>
    cases err with
    | CodedError c =>
      cases c <;>
        simp [ChangeStream.is_error_recoverable, specRecoverable, hin,
          ErrorCode.is_network_error]
    | DefaultError m =>
      simp [ChangeStream.is_error_recoverable, specRecoverable, hin]
    | OtherKind t =>
      simp [ChangeStream.is_error_recoverable, specRecoverable, hin]

/-! ## C6: full drain before any new fetch -/

theorem drainN_zero (env : CursorProvider) (cs : ChangeStream) :
    ChangeStream.drainN env cs 0 = some ([], cs) := rfl

theorem drainN_succ_ok (env : CursorProvider) (cs cs' : ChangeStream)
    (d : ChangeStreamDocument) (n : Nat)
    (h : cs.next env = some (some (.ok d), cs')) :
    ChangeStream.drainN env cs (n + 1) =
      (ChangeStream.drainN env cs' n).map (fun r => (d :: r.1, r.2)) := by
  conv_lhs => rw [ChangeStream.drainN]
  rw [h]

/-- Helper for C6: a feed whose buffer holds `l ≠ []` yields, over the next
`l.length` calls, exactly the stored batch in original server order
(`l.reverse`, the buffer being stored reversed), ending with an empty
buffer and with every state component except the buffer and the document
resume token — the cursor included — unchanged. -/
theorem drain_buffer_aux (env : CursorProvider) (l : List ChangeStreamDocument) :
    ∀ cs : ChangeStream, cs.buffer = l → l ≠ [] →
      ∃ tok, ChangeStream.drainN env cs l.length =
        some (l.reverse, { cs with buffer := [], document_resume_token := tok }) := by
  induction l using List.reverseRecOn with
  | nil => exact fun cs _ hne => absurd rfl hne
  | append_singleton xs x ih =>
    intro cs hbuf _
    have hlen0 : (cs.buffer.length == 0) = false := by simp [hbuf]
    have hnext : cs.next env = some (some (.ok x),
        { cs with buffer := xs, document_resume_token := some x.id }) := by
      simp only [ChangeStream.next, hlen0]
      simp [hbuf]
    rcases eq_or_ne xs [] with rfl | hxs
    · refine ⟨some x.id, ?_⟩
      simp only [List.length_append, List.length_singleton]
      rw [drainN_succ_ok env cs _ x _ hnext]
      simp [drainN_zero]
    · obtain ⟨tok, htok⟩ :=
        ih { cs with buffer := xs, document_resume_token := some x.id } rfl hxs
      refine ⟨tok, ?_⟩
      simp only [List.length_append, List.length_singleton]
      rw [drainN_succ_ok env cs _ x _ hnext, htok]
      simp

/-- **C6**: with a non-empty buffer the refill procedure is a no-op — it
returns `Ok` with the state unchanged and pulls nothing from the cursor —
and successive `next()` calls yield the buffered batch's documents one at a
time in original server order until the buffer is empty (leaving the
cursor untouched, so no new fetch occurs before that point). -/
theorem buffer_drained_before_fetch (cs : ChangeStream) (env : CursorProvider)
    (h : cs.buffer ≠ []) :
    cs.update_buffer env = some (.ok (), cs) ∧
    ∃ tok, ChangeStream.drainN env cs cs.buffer.length =
      some (cs.buffer.reverse,
        { cs with buffer := [], document_resume_token := tok }) := by
  constructor
  · unfold ChangeStream.update_buffer
    rw [if_pos (List.length_pos.mpr h)]
  · exact drain_buffer_aux env cs.buffer cs rfl h

/-- **C6** witness: a buffer storing `[{t:2}, {t:1}]` (reversed batch) is
drained as `[{t:1}, {t:2}]` — the original server order — with no fetch. -/
theorem buffer_drained_before_fetch_witness :
    ChangeStream.update_buffer
        { sampleStream with buffer := [sampleDoc2, sampleDoc] } sampleEnv =
      some (.ok (), { sampleStream with buffer := [sampleDoc2, sampleDoc] }) ∧
    ∃ tok, ChangeStream.drainN sampleEnv
        { sampleStream with buffer := [sampleDoc2, sampleDoc] } 2 =
      some ([sampleDoc, sampleDoc2],
        { sampleStream with buffer := [], document_resume_token := tok }) :=
  buffer_drained_before_fetch _ sampleEnv (List.cons_ne_nil _ _)

/-! ## C4: exactly one rebuild and retry on a recoverable error -/

/-- **C4**: after the first successful fetch (`is_initial_agg = false`), a
recoverable cursor error during buffer refill triggers exactly one rebuild:
the query is recomputed by the pipeline builder from the current resume
state (`rebuild_pipeline`), the collaborator is asked once for a cursor
over exactly those stages, and the fetch is retried exactly once on it.
Whatever error that single attempt produces — whether opening the new
cursor fails or its first pull fails, and regardless of the second error's
own classification — propagates to the caller unchanged, with no further
rebuild or retry (the resulting state's cursor shows the retry consumed
exactly one response). -/
theorem retry_exactly_once (cs : ChangeStream) (env : CursorProvider)
    (e : Error) (rest : List CursorResp) (stages : List BDoc)
    (hbuf : cs.buffer = [])
    (hinit : cs.is_initial_agg = false)
    (hcur : cs.cursor = ⟨.fail e :: rest⟩)
    (hrec : cs.is_error_recoverable e = true)
    (hbuild : ChangeStream.rebuild_pipeline { cs with cursor := ⟨rest⟩ } = .ok stages) :
    (∀ e₂, env stages = .error e₂ →
      cs.update_buffer env = some (.error e₂, { cs with cursor := ⟨rest⟩ })) ∧
    (∀ e₂ r₂, env stages = .ok ⟨.fail e₂ :: r₂⟩ →
      cs.update_buffer env = some (.error e₂, { cs with cursor := ⟨r₂⟩ })) := by
  rw [hbuf] at hbuild
  have hrec' : ChangeStream.is_error_recoverable
      { cs with cursor := ⟨rest⟩, buffer := [] } e = true := hrec
  constructor
  · intro e₂ henv
    simp only [ChangeStream.update_buffer, ChangeStream.new_cursor, Cursor.next]
    simp [hbuf, hcur, Cursor.next, hrec', hbuild, henv]
  · intro e₂ r₂ henv
    simp only [ChangeStream.update_buffer, ChangeStream.new_cursor, Cursor.next]
    simp [hbuf, hcur, Cursor.next, hrec', hbuild, henv]

/-- **C4** witness: a streaming feed hits a network error; the rebuilt
query is the change-stream stage over the original options, and the
collaborator's failure to open the new cursor propagates unchanged. -/
theorem retry_exactly_once_witness :
    ChangeStream.update_buffer
        { sampleStream with
          is_initial_agg := false,
          cursor := ⟨[.fail (.CodedError (.NetworkCode 6))]⟩ } sampleEnv =
      some (.error (.OtherKind "unused"),
        { sampleStream with is_initial_agg := false, cursor := ⟨[]⟩ }) :=
  (retry_exactly_once
    { sampleStream with
      is_initial_agg := false,
      cursor := ⟨[.fail (.CodedError (.NetworkCode 6))]⟩ }
    sampleEnv (.CodedError (.NetworkCode 6)) []
    [[("$changeStream", BVal.doc (toBsonOptions sampleOptions))]]
    rfl rfl rfl rfl rfl).1 (.OtherKind "unused") rfl

/-! ## C9: error atomicity of item production -/

/-- Helper for C9: whenever `update_buffer` returns an error, the state it
leaves behind differs from the input state at most in the cursor handle. -/
theorem update_buffer_error_state (cs : ChangeStream) (env : CursorProvider)
    (e : Error) (cs' : ChangeStream)
    (h : cs.update_buffer env = some (.error e, cs')) :
    cs' = { cs with cursor := cs'.cursor } := by
  rcases hcur : cs.cursor with ⟨resps⟩
  by_cases hb : cs.buffer.length > 0
  · rw [ChangeStream.update_buffer, if_pos hb] at h
    simp at h
  · rw [ChangeStream.update_buffer, if_neg hb] at h
    cases resps with
    | nil => simp [hcur, Cursor.next] at h
    | cons r rest =>
      cases r with
      | noItem => simp [hcur, Cursor.next] at h
      | item d =>
        cases hp : parseCSPayload d with
        | none =>
          simp [hcur, Cursor.next, hp] at h
          rw [← h.2]
        | some p => simp [hcur, Cursor.next, hp] at h
      | fail e₁ =>
        by_cases hr : ChangeStream.is_error_recoverable
            { cs with cursor := ⟨rest⟩ } e₁ = true
        · cases hnc : ChangeStream.new_cursor { cs with cursor := ⟨rest⟩ } env with
          | none => simp [hcur, Cursor.next, hr, hnc] at h
          | some res =>
            cases res with
            | error e₂ =>
              simp [hcur, Cursor.next, hr, hnc] at h
              rw [← h.2]
            | ok newCur =>
              rcases newCur with ⟨l₂⟩
              cases l₂ with
              | nil => simp [hcur, Cursor.next, hr, hnc] at h
              | cons r₂ rest₂ =>
                cases r₂ with
                | noItem => simp [hcur, Cursor.next, hr, hnc] at h
                | item d₂ =>
                  cases hp : parseCSPayload d₂ with
                  | none =>
                    simp [hcur, Cursor.next, hr, hnc, hp] at h
                    rw [← h.2]
                  | some p => simp [hcur, Cursor.next, hr, hnc, hp] at h
                | fail e₂ =>
                  simp [hcur, Cursor.next, hr, hnc] at h
                  rw [← h.2]
        · simp [hcur, Cursor.next, hr] at h
          rw [← h.2]

/-- **C9**: whenever `next()` returns an error, the feed's buffer, document
resume token, post-batch resume token, last operation time and
initial-aggregation flag are all unchanged from their values before the
call; only the cursor handle may differ (advanced, or replaced by the
single recovery attempt). -/
theorem next_error_atomic (cs : ChangeStream) (env : CursorProvider)
    (e : Error) (cs' : ChangeStream)
    (h : cs.next env = some (some (.error e), cs')) :
    cs'.buffer = cs.buffer ∧
    cs'.document_resume_token = cs.document_resume_token ∧
    cs'.post_batch_resume_token = cs.post_batch_resume_token ∧
    cs'.last_optime = cs.last_optime ∧
    cs'.is_initial_agg = cs.is_initial_agg := by
  have hu : cs.update_buffer env = some (.error e, cs') := by
    by_cases hb : (cs.buffer.length == 0) = true
    · cases hub : cs.update_buffer env with
      | none => simp [ChangeStream.next, hb, hub] at h
      | some r =>
        obtain ⟨res, cs₁⟩ := r
        cases res with
        | error e₁ =>
          simp [ChangeStream.next, hb, hub] at h
          rw [h.1, h.2]
        | ok u =>
          cases hl : cs₁.buffer.getLast? with
          | none => simp [ChangeStream.next, hb, hub, hl] at h
          | some doc => simp [ChangeStream.next, hb, hub, hl] at h
    · cases hl : cs.buffer.getLast? with
      | none => simp [ChangeStream.next, hb, hl] at h
      | some doc => simp [ChangeStream.next, hb, hl] at h
  have heq := update_buffer_error_state cs env e cs' hu
  rw [heq]
  exact ⟨rfl, rfl, rfl, rfl, rfl⟩

/-- **C9** witness: a streaming feed hits the denylisted "operation
interrupted" server error; `next()` propagates it and the state components
other than the cursor are untouched. -/
theorem next_error_atomic_witness :
    (({ sampleStream with
        is_initial_agg := false,
        cursor := ⟨[]⟩ } : ChangeStream)).buffer =
      ({ sampleStream with
         is_initial_agg := false,
         cursor := ⟨[.fail (.CodedError .Interrupted)]⟩ } : ChangeStream).buffer ∧
    (({ sampleStream with
        is_initial_agg := false,
        cursor := ⟨[]⟩ } : ChangeStream)).document_resume_token =
      ({ sampleStream with
         is_initial_agg := false,
         cursor := ⟨[.fail (.CodedError .Interrupted)]⟩ } : ChangeStream).document_resume_token ∧
    (({ sampleStream with
        is_initial_agg := false,
        cursor := ⟨[]⟩ } : ChangeStream)).post_batch_resume_token =
      ({ sampleStream with
         is_initial_agg := false,
         cursor := ⟨[.fail (.CodedError .Interrupted)]⟩ } : ChangeStream).post_batch_resume_token ∧
    (({ sampleStream with
        is_initial_agg := false,
        cursor := ⟨[]⟩ } : ChangeStream)).last_optime =
      ({ sampleStream with
         is_initial_agg := false,
         cursor := ⟨[.fail (.CodedError .Interrupted)]⟩ } : ChangeStream).last_optime ∧
    (({ sampleStream with
        is_initial_agg := false,
        cursor := ⟨[]⟩ } : ChangeStream)).is_initial_agg =
      ({ sampleStream with
         is_initial_agg := false,
         cursor := ⟨[.fail (.CodedError .Interrupted)]⟩ } : ChangeStream).is_initial_agg :=
  next_error_atomic
    { sampleStream with
      is_initial_agg := false,
      cursor := ⟨[.fail (.CodedError .Interrupted)]⟩ }
    sampleEnv (.CodedError .Interrupted)
    { sampleStream with is_initial_agg := false, cursor := ⟨[]⟩ } rfl

/-! ## C10: payload fields required by the feed -/

/-- Helper for C10: a payload lacking `operationTime`, `$clusterTime`, or
the cursor sub-document's `ns` or `id` fails to deserialize, no matter
what the rest of the payload — in particular the batch documents and
their `_id` tokens — looks like. -/
theorem parseCSPayload_missing_field (d : BDoc)
    (hmiss : dget d "operationTime" = none ∨ dget d "$clusterTime" = none ∨
      (∃ c, dget d "cursor" = some (.doc c) ∧
        (dget c "ns" = none ∨ dget c "id" = none))) :
    parseCSPayload d = none := by
  unfold parseCSPayload
  rcases hmiss with h | h | ⟨c, hc, hcm⟩
  · rw [h]
    split
    · split
      · rfl
      · rfl
    · rfl
  · rw [h]
    split
    · split
      · split
        · rfl
        · rfl
      · rfl
    · rfl
  · have hpc : parseCursorDoc c = none := by
      unfold parseCursorDoc
      rcases hcm with h | h
      · rw [h]
      · rw [h]
        split
        · rfl
        · rfl
    rw [hc]
    simp [hpc]

/-- **C10**: a fetch response payload that lacks `operationTime`,
`$clusterTime`, or the cursor's `ns` or `id` fields fails to decode, and
`next()` surfaces this as the fatal missing-resume-token configuration
error (leaving the state otherwise untouched) — even when every batch
document carries its mandatory resume-token `_id`; these payload fields
are required by the feed, not only the per-document token. -/
theorem missing_payload_field_is_fatal (cs : ChangeStream)
    (env : CursorProvider) (d : BDoc) (rest : List CursorResp)
    (hbuf : cs.buffer = [])
    (hcur : cs.cursor = ⟨.item d :: rest⟩)
    (hmiss : dget d "operationTime" = none ∨ dget d "$clusterTime" = none ∨
      (∃ c, dget d "cursor" = some (.doc c) ∧
        (dget c "ns" = none ∨ dget c "id" = none))) :
    cs.next env = some (some (.error missing_resume_token_error),
      { cs with cursor := ⟨rest⟩ }) := by
  have hp : parseCSPayload d = none := parseCSPayload_missing_field d hmiss
  simp only [ChangeStream.next, ChangeStream.update_buffer]
  simp [hbuf, hcur, Cursor.next, hp]

/-- **C10** witness: a payload with a fully-formed cursor sub-document —
`ns`, `id`, and a batch whose single document carries its `_id` resume
token — and a `$clusterTime`, but no `operationTime`, is rejected by the
feed with the missing-resume-token error. -/
theorem missing_payload_field_is_fatal_witness :
    ChangeStream.next
        { sampleStream with
          cursor := ⟨[.item
            [("cursor", .doc
              [("ns", .str "db.c"), ("id", .int 0),
               ("firstBatch", .arr [.doc [("_id", .doc [("t", .int 1)])]])]),
             ("$clusterTime", .doc [])]]⟩ } sampleEnv =
      some (some (.error missing_resume_token_error),
        { sampleStream with cursor := ⟨[]⟩ }) :=
  missing_payload_field_is_fatal
    { sampleStream with
      cursor := ⟨[.item
        [("cursor", .doc
          [("ns", .str "db.c"), ("id", .int 0),
           ("firstBatch", .arr [.doc [("_id", .doc [("t", .int 1)])]])]),
         ("$clusterTime", .doc [])]]⟩ }
    sampleEnv _ [] rfl rfl (Or.inl rfl)
